import Mathlib

/-!
A shallow embedding of the typed request-construction and wire-encoding
layer of the horizons query library: the body registry, the primitive
wire encoders, time specifications, target/center addressing, the
parameter builders and query serialization, together with proofs of the
specified properties.
-/

set_option maxRecDepth 8000
set_option maxHeartbeats 1600000

namespace Horizons

/-- Twos-complement wrap of an integer into the range of a 64-bit signed
integer, the semantics of a Rust cast to i64. -/
def i64_wrap (n : Int) : Int := (n + 2 ^ 63) % 2 ^ 64 - 2 ^ 63

/-- Error carrying the integer that is not a valid body identifier
(the field is an i64 in the source). -/
structure InvalidBodyCode where
  val : Int
deriving DecidableEq

inductive MajorBody where
  | SolarSystemBary
  | Sun
  | MercuryBary
  | Mercury
  | VenusBary
  | Venus
  | EarthMoonBary
  | Earth
  | Moon
  | EM_L1
  | EM_L2
  | EM_L4
  | EM_L5
  | SEMB_L1
  | SEMB_L2
  | SEMB_L4
  | SEMB_L5
  | MarsBary
  | Mars
  | Phobos
  | Deimos
  | JupiterBary
  | Jupiter
  | Io
  | Europa
  | Ganymede
  | Callisto
  | Amalthea
  | Himalia
  | Elara
  | Pasiphae
  | Sinope
  | Lysithea
  | Carme
  | Ananke
  | Leda
  | Thebe
  | Adrastea
  | Metis
  | Callirrhoe
  | Themisto
  | Megaclite
  | Taygete
  | Chaldene
  | Harpalyke
  | Kalyke
  | Iocaste
  | Erinome
  | Isonoe
  | Praxidike
  | Autonoe
  | Thyone
  | Hermippe
  | Aitne
  | Eurydome
  | Euanthe
  | Euporie
  | Orthosie
  | Sponde
  | Kale
  | Pasithee
  | Hegemone
  | Mneme
  | Aoede
  | Thelxinoe
  | Arche
  | Kallichore
  | Helike
  | Carpo
  | Eukelade
  | Cyllene
  | Kore
  | Herse
  | S2010J1
  | S2010J2
  | Dia
  | S2016J1
  | S2003J18
  | S2011J2
  | Eirene
  | Philophrosyne
  | S2017J1
  | Eupheme
  | S2003J19
  | Valetudo
  | S2017J2
  | S2017J3
  | Pandia
  | S2017J5
  | S2017J6
  | S2017J7
  | S2017J8
  | S2017J9
  | Ersa
  | S2011J1
  | S2003J2
  | S2003J4
  | S2003J9
  | S2003J10
  | S2003J12
  | S2003J16
  | S2003J23
  | S2003J24
  | SaturnBary
  | Saturn
  | Mimas
  | Enceladus
  | Tethys
  | Dione
  | Rhea
  | Titan
  | Hyperion
  | Iapetus
  | Phoebe
  | Janus
  | Epimetheus
  | Helene
  | Telesto
  | Calypso
  | Atlas
  | Prometheus
  | Pandora
  | Pan
  | Ymir
  | Paaliaq
  | Tarvos
  | Ijiraq
  | Suttungr
  | Kiviuq
  | Mundilfari
  | Albiorix
  | Skathi
  | Erriapus
  | Siarnaq
  | Thrymr
  | Narvi
  | Methone
  | Pallene
  | Polydeuces
  | Daphnis
  | Aegir
  | Bebhionn
  | Bergelmir
  | Bestla
  | Farbauti
  | Fenrir
  | Fornjot
  | Hati
  | Hyrrokkin
  | Kari
  | Loge
  | Skoll
  | Surtur
  | Anthe
  | Jarnsaxa
  | Greip
  | Tarqeq
  | Aegaeon
  | Gridr
  | Angrboda
  | Skrymir
  | Gerd
  | S2004S26
  | Eggther
  | S2004S29
  | Beli
  | Gunnlod
  | Thiazzi
  | S2004S34
  | Alvaldi
  | Geirrod
  | S2004S31
  | S2004S24
  | S2004S28
  | S2004S21
  | S2004S36
  | S2004S37
  | S2004S39
  | S2004S7
  | S2004S12
  | S2004S13
  | S2004S17
  | S2006S1
  | S2006S3
  | S2007S2
  | S2007S3
  | S2019S1
  | UranusBary
  | Uranus
  | Ariel
  | Umbriel
  | Titania
  | Oberon
  | Miranda
  | Cordelia
  | Ophelia
  | Bianca
  | Cressida
  | Desdemona
  | Juliet
  | Portia
  | Rosalind
  | Belinda
  | Puck
  | Caliban
  | Sycorax
  | Prospero
  | Setebos
  | Stephano
  | Trinculo
  | Francisco
  | Margaret
  | Ferdinand
  | Perdita
  | Mab
  | Cupid
  | NeptuneBary
  | Neptune
  | Triton
  | Nereid
  | Naiad
  | Thalassa
  | Despina
  | Galatea
  | Larissa
  | Proteus
  | Halimede
  | Psamathe
  | Sao
  | Laomedeia
  | Neso
  | Hippocamp
  | PlutoBary
  | Pluto
  | Charon
  | Nix
  | Hydra
  | Kerberos
  | Styx


def MajorBody.toCode : MajorBody -> Nat
  | .SolarSystemBary => 0
  | .Sun => 10
  | .MercuryBary => 1
  | .Mercury => 199
  | .VenusBary => 2
  | .Venus => 299
  | .EarthMoonBary => 3
  | .Earth => 399
  | .Moon => 301
  | .EM_L1 => 3011
  | .EM_L2 => 3012
  | .EM_L4 => 3014
  | .EM_L5 => 3015
  | .SEMB_L1 => 31
  | .SEMB_L2 => 32
  | .SEMB_L4 => 34
  | .SEMB_L5 => 35
  | .MarsBary => 4
  | .Mars => 499
  | .Phobos => 401
  | .Deimos => 402
  | .JupiterBary => 5
  | .Jupiter => 599
  | .Io => 501
  | .Europa => 502
  | .Ganymede => 503
  | .Callisto => 504
  | .Amalthea => 505
  | .Himalia => 506
  | .Elara => 507
  | .Pasiphae => 508
  | .Sinope => 509
  | .Lysithea => 510
  | .Carme => 511
  | .Ananke => 512
  | .Leda => 513
  | .Thebe => 514
  | .Adrastea => 515
  | .Metis => 516
  | .Callirrhoe => 517
  | .Themisto => 518
  | .Megaclite => 519
  | .Taygete => 520
  | .Chaldene => 521
  | .Harpalyke => 522
  | .Kalyke => 523
  | .Iocaste => 524
  | .Erinome => 525
  | .Isonoe => 526
  | .Praxidike => 527
  | .Autonoe => 528
  | .Thyone => 529
  | .Hermippe => 530
  | .Aitne => 531
  | .Eurydome => 532
  | .Euanthe => 533
  | .Euporie => 534
  | .Orthosie => 535
  | .Sponde => 536
  | .Kale => 537
  | .Pasithee => 538
  | .Hegemone => 539
  | .Mneme => 540
  | .Aoede => 541
  | .Thelxinoe => 542
  | .Arche => 543
  | .Kallichore => 544
  | .Helike => 545
  | .Carpo => 546
  | .Eukelade => 547
  | .Cyllene => 548
  | .Kore => 549
  | .Herse => 550
  | .S2010J1 => 551
  | .S2010J2 => 552
  | .Dia => 553
  | .S2016J1 => 554
  | .S2003J18 => 555
  | .S2011J2 => 556
  | .Eirene => 557
  | .Philophrosyne => 558
  | .S2017J1 => 559
  | .Eupheme => 560
  | .S2003J19 => 561
  | .Valetudo => 562
  | .S2017J2 => 563
  | .S2017J3 => 564
  | .Pandia => 565
  | .S2017J5 => 566
  | .S2017J6 => 567
  | .S2017J7 => 568
  | .S2017J8 => 569
  | .S2017J9 => 570
  | .Ersa => 571
  | .S2011J1 => 572
  | .S2003J2 => 55501
  | .S2003J4 => 55502
  | .S2003J9 => 55503
  | .S2003J10 => 55504
  | .S2003J12 => 55505
  | .S2003J16 => 55506
  | .S2003J23 => 55507
  | .S2003J24 => 55508
  | .SaturnBary => 6
  | .Saturn => 699
  | .Mimas => 601
  | .Enceladus => 602
  | .Tethys => 603
  | .Dione => 604
  | .Rhea => 605
  | .Titan => 606
  | .Hyperion => 607
  | .Iapetus => 608
  | .Phoebe => 609
  | .Janus => 610
  | .Epimetheus => 611
  | .Helene => 612
  | .Telesto => 613
  | .Calypso => 614
  | .Atlas => 615
  | .Prometheus => 616
  | .Pandora => 617
  | .Pan => 618
  | .Ymir => 619
  | .Paaliaq => 620
  | .Tarvos => 621
  | .Ijiraq => 622
  | .Suttungr => 623
  | .Kiviuq => 624
  | .Mundilfari => 625
  | .Albiorix => 626
  | .Skathi => 627
  | .Erriapus => 628
  | .Siarnaq => 629
  | .Thrymr => 630
  | .Narvi => 631
  | .Methone => 632
  | .Pallene => 633
  | .Polydeuces => 634
  | .Daphnis => 635
  | .Aegir => 636
  | .Bebhionn => 637
  | .Bergelmir => 638
  | .Bestla => 639
  | .Farbauti => 640
  | .Fenrir => 641
  | .Fornjot => 642
  | .Hati => 643
  | .Hyrrokkin => 644
  | .Kari => 645
  | .Loge => 646
  | .Skoll => 647
  | .Surtur => 648
  | .Anthe => 649
  | .Jarnsaxa => 650
  | .Greip => 651
  | .Tarqeq => 652
  | .Aegaeon => 653
  | .Gridr => 654
  | .Angrboda => 655
  | .Skrymir => 656
  | .Gerd => 657
  | .S2004S26 => 658
  | .Eggther => 659
  | .S2004S29 => 660
  | .Beli => 661
  | .Gunnlod => 662
  | .Thiazzi => 663
  | .S2004S34 => 664
  | .Alvaldi => 665
  | .Geirrod => 666
  | .S2004S31 => 65067
  | .S2004S24 => 65070
  | .S2004S28 => 65077
  | .S2004S21 => 65079
  | .S2004S36 => 65081
  | .S2004S37 => 65082
  | .S2004S39 => 65084
  | .S2004S7 => 65085
  | .S2004S12 => 65086
  | .S2004S13 => 65087
  | .S2004S17 => 65088
  | .S2006S1 => 65089
  | .S2006S3 => 65090
  | .S2007S2 => 65091
  | .S2007S3 => 65092
  | .S2019S1 => 65093
  | .UranusBary => 7
  | .Uranus => 799
  | .Ariel => 701
  | .Umbriel => 702
  | .Titania => 703
  | .Oberon => 704
  | .Miranda => 705
  | .Cordelia => 706
  | .Ophelia => 707
  | .Bianca => 708
  | .Cressida => 709
  | .Desdemona => 710
  | .Juliet => 711
  | .Portia => 712
  | .Rosalind => 713
  | .Belinda => 714
  | .Puck => 715
  | .Caliban => 716
  | .Sycorax => 717
  | .Prospero => 718
  | .Setebos => 719
  | .Stephano => 720
  | .Trinculo => 721
  | .Francisco => 722
  | .Margaret => 723
  | .Ferdinand => 724
  | .Perdita => 725
  | .Mab => 726
  | .Cupid => 727
  | .NeptuneBary => 8
  | .Neptune => 899
  | .Triton => 801
  | .Nereid => 802
  | .Naiad => 803
  | .Thalassa => 804
  | .Despina => 805
  | .Galatea => 806
  | .Larissa => 807
  | .Proteus => 808
  | .Halimede => 809
  | .Psamathe => 810
  | .Sao => 811
  | .Laomedeia => 812
  | .Neso => 813
  | .Hippocamp => 814
  | .PlutoBary => 9
  | .Pluto => 999
  | .Charon => 901
  | .Nix => 902
  | .Hydra => 903
  | .Kerberos => 904
  | .Styx => 905


def MajorBody.table : List (Nat × MajorBody) :=
  [Prod.mk 0 MajorBody.SolarSystemBary,
   Prod.mk 10 MajorBody.Sun,
   Prod.mk 1 MajorBody.MercuryBary,
   Prod.mk 199 MajorBody.Mercury,
   Prod.mk 2 MajorBody.VenusBary,
   Prod.mk 299 MajorBody.Venus,
   Prod.mk 3 MajorBody.EarthMoonBary,
   Prod.mk 399 MajorBody.Earth,
   Prod.mk 301 MajorBody.Moon,
   Prod.mk 3011 MajorBody.EM_L1,
   Prod.mk 3012 MajorBody.EM_L2,
   Prod.mk 3014 MajorBody.EM_L4,
   Prod.mk 3015 MajorBody.EM_L5,
   Prod.mk 31 MajorBody.SEMB_L1,
   Prod.mk 32 MajorBody.SEMB_L2,
   Prod.mk 34 MajorBody.SEMB_L4,
   Prod.mk 35 MajorBody.SEMB_L5,
   Prod.mk 4 MajorBody.MarsBary,
   Prod.mk 499 MajorBody.Mars,
   Prod.mk 401 MajorBody.Phobos,
   Prod.mk 402 MajorBody.Deimos,
   Prod.mk 5 MajorBody.JupiterBary,
   Prod.mk 599 MajorBody.Jupiter,
   Prod.mk 501 MajorBody.Io,
   Prod.mk 502 MajorBody.Europa,
   Prod.mk 503 MajorBody.Ganymede,
   Prod.mk 504 MajorBody.Callisto,
   Prod.mk 505 MajorBody.Amalthea,
   Prod.mk 506 MajorBody.Himalia,
   Prod.mk 507 MajorBody.Elara,
   Prod.mk 508 MajorBody.Pasiphae,
   Prod.mk 509 MajorBody.Sinope,
   Prod.mk 510 MajorBody.Lysithea,
   Prod.mk 511 MajorBody.Carme,
   Prod.mk 512 MajorBody.Ananke,
   Prod.mk 513 MajorBody.Leda,
   Prod.mk 514 MajorBody.Thebe,
   Prod.mk 515 MajorBody.Adrastea,
   Prod.mk 516 MajorBody.Metis,
   Prod.mk 517 MajorBody.Callirrhoe,
   Prod.mk 518 MajorBody.Themisto,
   Prod.mk 519 MajorBody.Megaclite,
   Prod.mk 520 MajorBody.Taygete,
   Prod.mk 521 MajorBody.Chaldene,
   Prod.mk 522 MajorBody.Harpalyke,
   Prod.mk 523 MajorBody.Kalyke,
   Prod.mk 524 MajorBody.Iocaste,
   Prod.mk 525 MajorBody.Erinome,
   Prod.mk 526 MajorBody.Isonoe,
   Prod.mk 527 MajorBody.Praxidike,
   Prod.mk 528 MajorBody.Autonoe,
   Prod.mk 529 MajorBody.Thyone,
   Prod.mk 530 MajorBody.Hermippe,
   Prod.mk 531 MajorBody.Aitne,
   Prod.mk 532 MajorBody.Eurydome,
   Prod.mk 533 MajorBody.Euanthe,
   Prod.mk 534 MajorBody.Euporie,
   Prod.mk 535 MajorBody.Orthosie,
   Prod.mk 536 MajorBody.Sponde,
   Prod.mk 537 MajorBody.Kale,
   Prod.mk 538 MajorBody.Pasithee,
   Prod.mk 539 MajorBody.Hegemone,
   Prod.mk 540 MajorBody.Mneme,
   Prod.mk 541 MajorBody.Aoede,
   Prod.mk 542 MajorBody.Thelxinoe,
   Prod.mk 543 MajorBody.Arche,
   Prod.mk 544 MajorBody.Kallichore,
   Prod.mk 545 MajorBody.Helike,
   Prod.mk 546 MajorBody.Carpo,
   Prod.mk 547 MajorBody.Eukelade,
   Prod.mk 548 MajorBody.Cyllene,
   Prod.mk 549 MajorBody.Kore,
   Prod.mk 550 MajorBody.Herse,
   Prod.mk 551 MajorBody.S2010J1,
   Prod.mk 552 MajorBody.S2010J2,
   Prod.mk 553 MajorBody.Dia,
   Prod.mk 554 MajorBody.S2016J1,
   Prod.mk 555 MajorBody.S2003J18,
   Prod.mk 556 MajorBody.S2011J2,
   Prod.mk 557 MajorBody.Eirene,
   Prod.mk 558 MajorBody.Philophrosyne,
   Prod.mk 559 MajorBody.S2017J1,
   Prod.mk 560 MajorBody.Eupheme,
   Prod.mk 561 MajorBody.S2003J19,
   Prod.mk 562 MajorBody.Valetudo,
   Prod.mk 563 MajorBody.S2017J2,
   Prod.mk 564 MajorBody.S2017J3,
   Prod.mk 565 MajorBody.Pandia,
   Prod.mk 566 MajorBody.S2017J5,
   Prod.mk 567 MajorBody.S2017J6,
   Prod.mk 568 MajorBody.S2017J7,
   Prod.mk 569 MajorBody.S2017J8,
   Prod.mk 570 MajorBody.S2017J9,
   Prod.mk 571 MajorBody.Ersa,
   Prod.mk 572 MajorBody.S2011J1,
   Prod.mk 55501 MajorBody.S2003J2,
   Prod.mk 55502 MajorBody.S2003J4,
   Prod.mk 55503 MajorBody.S2003J9,
   Prod.mk 55504 MajorBody.S2003J10,
   Prod.mk 55505 MajorBody.S2003J12,
   Prod.mk 55506 MajorBody.S2003J16,
   Prod.mk 55507 MajorBody.S2003J23,
   Prod.mk 55508 MajorBody.S2003J24,
   Prod.mk 6 MajorBody.SaturnBary,
   Prod.mk 699 MajorBody.Saturn,
   Prod.mk 601 MajorBody.Mimas,
   Prod.mk 602 MajorBody.Enceladus,
   Prod.mk 603 MajorBody.Tethys,
   Prod.mk 604 MajorBody.Dione,
   Prod.mk 605 MajorBody.Rhea,
   Prod.mk 606 MajorBody.Titan,
   Prod.mk 607 MajorBody.Hyperion,
   Prod.mk 608 MajorBody.Iapetus,
   Prod.mk 609 MajorBody.Phoebe,
   Prod.mk 610 MajorBody.Janus,
   Prod.mk 611 MajorBody.Epimetheus,
   Prod.mk 612 MajorBody.Helene,
   Prod.mk 613 MajorBody.Telesto,
   Prod.mk 614 MajorBody.Calypso,
   Prod.mk 615 MajorBody.Atlas,
   Prod.mk 616 MajorBody.Prometheus,
   Prod.mk 617 MajorBody.Pandora,
   Prod.mk 618 MajorBody.Pan,
   Prod.mk 619 MajorBody.Ymir,
   Prod.mk 620 MajorBody.Paaliaq,
   Prod.mk 621 MajorBody.Tarvos,
   Prod.mk 622 MajorBody.Ijiraq,
   Prod.mk 623 MajorBody.Suttungr,
   Prod.mk 624 MajorBody.Kiviuq,
   Prod.mk 625 MajorBody.Mundilfari,
   Prod.mk 626 MajorBody.Albiorix,
   Prod.mk 627 MajorBody.Skathi,
   Prod.mk 628 MajorBody.Erriapus,
   Prod.mk 629 MajorBody.Siarnaq,
   Prod.mk 630 MajorBody.Thrymr,
   Prod.mk 631 MajorBody.Narvi,
   Prod.mk 632 MajorBody.Methone,
   Prod.mk 633 MajorBody.Pallene,
   Prod.mk 634 MajorBody.Polydeuces,
   Prod.mk 635 MajorBody.Daphnis,
   Prod.mk 636 MajorBody.Aegir,
   Prod.mk 637 MajorBody.Bebhionn,
   Prod.mk 638 MajorBody.Bergelmir,
   Prod.mk 639 MajorBody.Bestla,
   Prod.mk 640 MajorBody.Farbauti,
   Prod.mk 641 MajorBody.Fenrir,
   Prod.mk 642 MajorBody.Fornjot,
   Prod.mk 643 MajorBody.Hati,
   Prod.mk 644 MajorBody.Hyrrokkin,
   Prod.mk 645 MajorBody.Kari,
   Prod.mk 646 MajorBody.Loge,
   Prod.mk 647 MajorBody.Skoll,
   Prod.mk 648 MajorBody.Surtur,
   Prod.mk 649 MajorBody.Anthe,
   Prod.mk 650 MajorBody.Jarnsaxa,
   Prod.mk 651 MajorBody.Greip,
   Prod.mk 652 MajorBody.Tarqeq,
   Prod.mk 653 MajorBody.Aegaeon,
   Prod.mk 654 MajorBody.Gridr,
   Prod.mk 655 MajorBody.Angrboda,
   Prod.mk 656 MajorBody.Skrymir,
   Prod.mk 657 MajorBody.Gerd,
   Prod.mk 658 MajorBody.S2004S26,
   Prod.mk 659 MajorBody.Eggther,
   Prod.mk 660 MajorBody.S2004S29,
   Prod.mk 661 MajorBody.Beli,
   Prod.mk 662 MajorBody.Gunnlod,
   Prod.mk 663 MajorBody.Thiazzi,
   Prod.mk 664 MajorBody.S2004S34,
   Prod.mk 665 MajorBody.Alvaldi,
   Prod.mk 666 MajorBody.Geirrod,
   Prod.mk 65067 MajorBody.S2004S31,
   Prod.mk 65070 MajorBody.S2004S24,
   Prod.mk 65077 MajorBody.S2004S28,
   Prod.mk 65079 MajorBody.S2004S21,
   Prod.mk 65081 MajorBody.S2004S36,
   Prod.mk 65082 MajorBody.S2004S37,
   Prod.mk 65084 MajorBody.S2004S39,
   Prod.mk 65085 MajorBody.S2004S7,
   Prod.mk 65086 MajorBody.S2004S12,
   Prod.mk 65087 MajorBody.S2004S13,
   Prod.mk 65088 MajorBody.S2004S17,
   Prod.mk 65089 MajorBody.S2006S1,
   Prod.mk 65090 MajorBody.S2006S3,
   Prod.mk 65091 MajorBody.S2007S2,
   Prod.mk 65092 MajorBody.S2007S3,
   Prod.mk 65093 MajorBody.S2019S1,
   Prod.mk 7 MajorBody.UranusBary,
   Prod.mk 799 MajorBody.Uranus,
   Prod.mk 701 MajorBody.Ariel,
   Prod.mk 702 MajorBody.Umbriel,
   Prod.mk 703 MajorBody.Titania,
   Prod.mk 704 MajorBody.Oberon,
   Prod.mk 705 MajorBody.Miranda,
   Prod.mk 706 MajorBody.Cordelia,
   Prod.mk 707 MajorBody.Ophelia,
   Prod.mk 708 MajorBody.Bianca,
   Prod.mk 709 MajorBody.Cressida,
   Prod.mk 710 MajorBody.Desdemona,
   Prod.mk 711 MajorBody.Juliet,
   Prod.mk 712 MajorBody.Portia,
   Prod.mk 713 MajorBody.Rosalind,
   Prod.mk 714 MajorBody.Belinda,
   Prod.mk 715 MajorBody.Puck,
   Prod.mk 716 MajorBody.Caliban,
   Prod.mk 717 MajorBody.Sycorax,
   Prod.mk 718 MajorBody.Prospero,
   Prod.mk 719 MajorBody.Setebos,
   Prod.mk 720 MajorBody.Stephano,
   Prod.mk 721 MajorBody.Trinculo,
   Prod.mk 722 MajorBody.Francisco,
   Prod.mk 723 MajorBody.Margaret,
   Prod.mk 724 MajorBody.Ferdinand,
   Prod.mk 725 MajorBody.Perdita,
   Prod.mk 726 MajorBody.Mab,
   Prod.mk 727 MajorBody.Cupid,
   Prod.mk 8 MajorBody.NeptuneBary,
   Prod.mk 899 MajorBody.Neptune,
   Prod.mk 801 MajorBody.Triton,
   Prod.mk 802 MajorBody.Nereid,
   Prod.mk 803 MajorBody.Naiad,
   Prod.mk 804 MajorBody.Thalassa,
   Prod.mk 805 MajorBody.Despina,
   Prod.mk 806 MajorBody.Galatea,
   Prod.mk 807 MajorBody.Larissa,
   Prod.mk 808 MajorBody.Proteus,
   Prod.mk 809 MajorBody.Halimede,
   Prod.mk 810 MajorBody.Psamathe,
   Prod.mk 811 MajorBody.Sao,
   Prod.mk 812 MajorBody.Laomedeia,
   Prod.mk 813 MajorBody.Neso,
   Prod.mk 814 MajorBody.Hippocamp,
   Prod.mk 9 MajorBody.PlutoBary,
   Prod.mk 999 MajorBody.Pluto,
   Prod.mk 901 MajorBody.Charon,
   Prod.mk 902 MajorBody.Nix,
   Prod.mk 903 MajorBody.Hydra,
   Prod.mk 904 MajorBody.Kerberos,
   Prod.mk 905 MajorBody.Styx]

/-- Decoding a nonnegative integer against the registry: the first matching
arm in source order, as in the source match. -/
def MajorBody.lookup (n : Nat) : Option MajorBody := MajorBody.table.lookup n

/-- Decoding an integer into a body. A negative input matches no code
pattern of the source match; a miss produces the error value carrying the
input cast to i64. -/
def MajorBody.tryFromInt (num : Int) : Except InvalidBodyCode MajorBody :=
  match (if 0 ≤ num then MajorBody.lookup num.toNat else none) with
  | some b => Except.ok b
  | none => Except.error ⟨i64_wrap num⟩


/-! ### Primitive wire encoders -/

/-- Boolean wire value: Yes and No, discriminants 1 and 0. -/
inductive HzBool where
  | Yes
  | No
deriving DecidableEq

/-- Conversion from bool as in the source From impl. -/
def HzBool.fromBool (b : Bool) : HzBool := if b then HzBool.Yes else HzBool.No

/-- The serde rename tokens of HzBool. -/
def HzBool.toWire : HzBool → String
  | HzBool.Yes => "yes"
  | HzBool.No => "no"

/-- Ephemeris type tag. -/
inductive EphemType where
  | Observer
  | Elements
  | Vectors
deriving DecidableEq

/-- The serde rename tokens of EphemType. -/
def EphemType.toWire : EphemType → String
  | EphemType.Observer => "O"
  | EphemType.Elements => "E"
  | EphemType.Vectors => "V"

/-- Output format tag. -/
inductive Format where
  | Text
  | Json
deriving DecidableEq

/-- The serde rename tokens of Format. -/
def Format.toWire : Format → String
  | Format.Text => "text"
  | Format.Json => "json"

/-- Output units, default KM_S. -/
inductive OutUnits where
  | KM_D
  | KM_S
  | AU_D
deriving DecidableEq

instance : Inhabited OutUnits := ⟨OutUnits.KM_S⟩

/-- The serde rename tokens of OutUnits. -/
def OutUnits.toWire : OutUnits → String
  | OutUnits.KM_D => "km-d"
  | OutUnits.KM_S => "km-s"
  | OutUnits.AU_D => "au-d"

/-- Reference plane, default Ecliptic. -/
inductive RefPlane where
  | Ecliptic
  | Frame
  | BodyEquator
deriving DecidableEq

instance : Inhabited RefPlane := ⟨RefPlane.Ecliptic⟩

/-- The serde rename tokens of RefPlane. -/
def RefPlane.toWire : RefPlane → String
  | RefPlane.Ecliptic => "E"
  | RefPlane.Frame => "F"
  | RefPlane.BodyEquator => "B"

/-- Reference system, default ICRF; serde uses the variant names. -/
inductive RefSystem where
  | ICRF
  | B1950
deriving DecidableEq

instance : Inhabited RefSystem := ⟨RefSystem.ICRF⟩

/-- The wire tokens of RefSystem (the variant names). -/
def RefSystem.toWire : RefSystem → String
  | RefSystem.ICRF => "ICRF"
  | RefSystem.B1950 => "B1950"

/-- Vector correction mode, default None. -/
inductive Correction where
  | None
  | LT
  | LT_S
deriving DecidableEq

instance : Inhabited Correction := ⟨Correction.None⟩

/-- The serde rename tokens of Correction. -/
def Correction.toWire : Correction → String
  | Correction.None => "NONE"
  | Correction.LT => "LT"
  | Correction.LT_S => "LT+S"

/-- Vector table layout, discriminants 1 to 6, default State_LT. -/
inductive TableFormat where
  | Position
  | State
  | State_LT
  | Position_LT
  | Velocity
  | LT
deriving DecidableEq

instance : Inhabited TableFormat := ⟨TableFormat.State_LT⟩

/-- The enum discriminant of a table layout, which the source returns from
a conversion to u8 and serializes as a number. -/
def TableFormat.toCode : TableFormat → Nat
  | TableFormat.Position => 1
  | TableFormat.State => 2
  | TableFormat.State_LT => 3
  | TableFormat.Position_LT => 4
  | TableFormat.Velocity => 5
  | TableFormat.LT => 6

/-- Periapsis-time convention of the elements block, default Absolute;
serde uses the variant names. -/
inductive TpType where
  | Absolute
  | Relative
deriving DecidableEq

instance : Inhabited TpType := ⟨TpType.Absolute⟩

/-- The wire tokens of TpType (the variant names). -/
def TpType.toWire : TpType → String
  | TpType.Absolute => "Absolute"
  | TpType.Relative => "Relative"

/-! ### Step sizes and time specifications -/

/-- Unit of a step size. -/
inductive StepSizeUnit where
  | Unitless
  | Minutes
  | Hours
  | Days
  | Years
  | Months
deriving DecidableEq

/-- The unit suffix of the wire form of a step size. -/
def StepSizeUnit.as_hz_unit : StepSizeUnit → String
  | StepSizeUnit.Days => "d"
  | StepSizeUnit.Hours => "h"
  | StepSizeUnit.Minutes => "m"
  | StepSizeUnit.Years => "y"
  | StepSizeUnit.Months => "mo"
  | StepSizeUnit.Unitless => ""

/-- A step size: a u32 magnitude and a unit. -/
structure StepSize where
  value : Nat
  unit : StepSizeUnit
deriving DecidableEq

/-- The Display rendering of a step size: the value followed by the unit
suffix, which is also its serde serialization. -/
def StepSize.toWire (s : StepSize) : String := Nat.repr s.value ++ s.unit.as_hz_unit

/-- A UTC instant as rendered by the datetime library: calendar date plus
time of day and nanoseconds. -/
structure DateTime where
  year : Nat
  month : Nat
  day : Nat
  hour : Nat
  minute : Nat
  second : Nat
  nanos : Nat
deriving DecidableEq

/-- Zero-pad a decimal rendering on the left to the given width. -/
def padNum (width n : Nat) : String :=
  let s := Nat.repr n
  if s.length < width then String.mk (List.replicate (width - s.length) (Char.ofNat 48)) ++ s
  else s

/-- The automatic-precision fractional-second part: empty when the
nanoseconds are zero, otherwise 3, 6 or 9 digits, dropping trailing zero
sub-second digit groups. -/
def DateTime.fracAutoSi (d : DateTime) : String :=
  if d.nanos = 0 then ""
  else if d.nanos % 1000000 = 0 then "." ++ padNum 3 (d.nanos / 1000000)
  else if d.nanos % 1000 = 0 then "." ++ padNum 6 (d.nanos / 1000)
  else "." ++ padNum 9 d.nanos

/-- The RFC 3339 rendering without the offset marker. -/
def DateTime.rfc3339Core (d : DateTime) : String :=
  padNum 4 d.year ++ "-" ++ padNum 2 d.month ++ "-" ++ padNum 2 d.day ++ "T" ++
  padNum 2 d.hour ++ ":" ++ padNum 2 d.minute ++ ":" ++ padNum 2 d.second ++ d.fracAutoSi

/-- The RFC 3339 rendering of a UTC instant with automatic sub-second
precision and the Z offset marker: the serialization the source applies to
every timestamp. -/
def DateTime.rfc3339Z (d : DateTime) : String := d.rfc3339Core ++ "Z"

/-- A list of instants (named alias, usable inside namespaces where the
TimeSpec constructor named List shadows the core list type). -/
abbrev InstantList := List DateTime

/-- An ordered list of serialized key-value fields. -/
abbrev FieldList := List (String × String)

/-- Wrapper around a list of instants, serialized as one comma-joined
string. -/
structure TList where
  times : List DateTime
deriving DecidableEq

/-- The serde serialization of a TList: the timestamps rendered and joined
with commas. -/
def TList.toWire (t : TList) : String := String.intercalate "," (t.times.map DateTime.rfc3339Z)

/-- A time specification: a bounded range with a step size, or an explicit
list of instants. -/
inductive TimeSpec where
  | Bounded (step_size : StepSize) (start_time : DateTime) (stop_time : DateTime)
  | List (tlist : TList)
deriving DecidableEq

/-- The bounded constructor of the source. -/
def TimeSpec.bounded (step_size : StepSize) (start_time stop_time : DateTime) : TimeSpec :=
  TimeSpec.Bounded step_size start_time stop_time

/-- The list constructor of the source: collects any iterable of instants,
empty and singleton lists included. -/
def TimeSpec.from_list (l : InstantList) : TimeSpec := TimeSpec.List ⟨l⟩

/-- The serialized fields of a time specification: a bounded spec renders
three separate fields, a list spec renders one tlist field. -/
def TimeSpec.fields : TimeSpec → FieldList
  | TimeSpec.Bounded ss a b =>
      [("step_size", ss.toWire), ("start_time", a.rfc3339Z), ("stop_time", b.rfc3339Z)]
  | TimeSpec.List t => [("tlist", t.toWire)]

/-! ### Target and center addressing -/

/-- A query body: a registry body or a free-form escape string. -/
inductive Body where
  | MajorBody (b : Horizons.MajorBody)
  | Custom (s : String)

/-- The Display rendering of a body: the numeric code of a registry body,
or the custom string verbatim; serde serializes the same values. -/
def Body.toWire : Body → String
  | Body.MajorBody b => Nat.repr b.toCode
  | Body.Custom s => s

/-- The query target: a body or a free-form escape string. -/
inductive Command where
  | Body (b : Horizons.Body)
  | Custom (s : String)

/-- The untagged serde serialization of a command. -/
def Command.toWire : Command → String
  | Command.Body b => b.toWire
  | Command.Custom s => s

/-- An observing site: the center itself (wire token 500) or a custom u16
site code. -/
inductive Site where
  | Center
  | Custom (n : Nat)

/-- The Display rendering of a site. -/
def Site.toWire : Site → String
  | Site.Center => "500"
  | Site.Custom n => Nat.repr n

/-- A center: an observing site paired with a body. -/
structure Center where
  site : Site
  body : Body

/-- Center from a body alone: the site defaults to the center itself. -/
def Center.fromBody (b : Body) : Center := ⟨Site.Center, b⟩

/-- Center from an explicit site and body pair. -/
def Center.fromPair (s : Site) (b : Body) : Center := ⟨s, b⟩

/-- The serde serialization of a center: one string joining the site and
body tokens with an at sign. -/
def Center.toWire (c : Center) : String := c.site.toWire ++ "@" ++ c.body.toWire

/-! ### url encoding -/

/-- Uppercase hexadecimal digit for a value below 16. -/
def hexDigit (n : Nat) : Char := if n < 10 then Char.ofNat (48 + n) else Char.ofNat (55 + n)

/-- The UTF-8 bytes of a character. -/
def utf8Bytes (c : Char) : List Nat :=
  let n := c.toNat
  if n < 128 then [n]
  else if n < 2048 then [192 + n / 64, 128 + n % 64]
  else if n < 65536 then [224 + n / 4096, 128 + (n / 64) % 64, 128 + n % 64]
  else [240 + n / 262144, 128 + (n / 4096) % 64, 128 + (n / 64) % 64, 128 + n % 64]

/-- Characters the form-urlencoded serializer leaves unescaped: ASCII
alphanumerics, asterisk, hyphen, period and underscore. -/
def isFormUnreserved (c : Char) : Bool :=
  c.isAlphanum || c == Char.ofNat 42 || c == Char.ofNat 45 || c == Char.ofNat 46 ||
    c == Char.ofNat 95

/-- Percent-escape of one byte. -/
def percentByte (b : Nat) : List Char := [Char.ofNat 37, hexDigit (b / 16), hexDigit (b % 16)]

/-- Form-urlencoded escaping of one character: unreserved characters pass
through, a space becomes a plus sign, anything else is percent-escaped
bytewise. -/
def encodeChar (c : Char) : List Char :=
  if isFormUnreserved c then [c]
  else if c == Char.ofNat 32 then [Char.ofNat 43]
  else (utf8Bytes c).flatMap percentByte

/-- Form-urlencoded escaping of a string. -/
def percentEncode (s : String) : String := String.mk (s.data.flatMap encodeChar)

/-- One serialized key-value pair. -/
def encodePair (kv : String × String) : String :=
  percentEncode kv.1 ++ "=" ++ percentEncode kv.2

/-- The url-encoded rendering of an ordered field list, pairs joined with
ampersands. -/
def urlEncode (l : FieldList) : String := String.intercalate "&" (l.map encodePair)

/-! ### The common block and its builder -/

/-- The common parameter block of a finished query, fields in declared
wire order. -/
structure Common where
  command : Command
  ephem_type : EphemType
  center : Center
  ref_system : RefSystem
  format : Format
  obj_data : HzBool
  make_ephem : HzBool
  csv_format : HzBool
  time_spec : TimeSpec

/-- The serialized fields of the common block: the declared fields in
order, then the flattened time specification. -/
def Common.fields (c : Common) : FieldList :=
  [("command", c.command.toWire),
   ("ephem_type", c.ephem_type.toWire),
   ("center", c.center.toWire),
   ("ref_system", c.ref_system.toWire),
   ("format", c.format.toWire),
   ("obj_data", c.obj_data.toWire),
   ("make_ephem", c.make_ephem.toWire),
   ("csv_format", c.csv_format.toWire)] ++ c.time_spec.fields

/-- The builder error: a required field was never set; carries the field
name. -/
inductive CommonBuilderError where
  | UninitializedField (name : String)
deriving DecidableEq

/-- The mutable accumulator for the common block: required fields are
options starting unset, the rest start at their protocol defaults. -/
structure CommonBuilder where
  command : Option Command
  ephem_type : Option EphemType
  center : Option Center
  ref_system : RefSystem
  time_spec : Option TimeSpec
  format : Format
  obj_data : Bool
  make_ephem : Bool
  csv_format : Bool

/-- The Default impl of the builder. -/
def CommonBuilder.default : CommonBuilder :=
  { command := none, ephem_type := none, center := none,
    ref_system := RefSystem.ICRF, time_spec := none, format := Format.Text,
    obj_data := true, make_ephem := true, csv_format := false }

/-- The new constructor: the default state. -/
def CommonBuilder.new : CommonBuilder := CommonBuilder.default

/-- Setter for the command field. -/
def CommonBuilder.command' (b : CommonBuilder) (v : Command) : CommonBuilder :=
  { b with command := some v }

/-- Setter for the ephemeris type field. -/
def CommonBuilder.ephem_type' (b : CommonBuilder) (v : EphemType) : CommonBuilder :=
  { b with ephem_type := some v }

/-- Setter for the center field. -/
def CommonBuilder.center' (b : CommonBuilder) (v : Center) : CommonBuilder :=
  { b with center := some v }

/-- Setter for the reference system field. -/
def CommonBuilder.ref_system' (b : CommonBuilder) (v : RefSystem) : CommonBuilder :=
  { b with ref_system := v }

/-- Setter for the time specification field. -/
def CommonBuilder.time_spec' (b : CommonBuilder) (v : TimeSpec) : CommonBuilder :=
  { b with time_spec := some v }

/-- Setter for the format field. -/
def CommonBuilder.format' (b : CommonBuilder) (v : Format) : CommonBuilder :=
  { b with format := v }

/-- Setter for the object data flag. -/
def CommonBuilder.obj_data' (b : CommonBuilder) (v : Bool) : CommonBuilder :=
  { b with obj_data := v }

/-- Setter for the make-ephemeris flag. -/
def CommonBuilder.make_ephem' (b : CommonBuilder) (v : Bool) : CommonBuilder :=
  { b with make_ephem := v }

/-- Setter for the csv flag. -/
def CommonBuilder.csv_format' (b : CommonBuilder) (v : Bool) : CommonBuilder :=
  { b with csv_format := v }

/-- Finalization of the common block: checks the four required fields in
the source order command, ephem_type, center, time_spec, failing with the
first one found unset, and otherwise assembles the block from the set
values and the defaults. -/
def CommonBuilder.build (b : CommonBuilder) : Except CommonBuilderError Common :=
  match b.command with
  | none => Except.error (CommonBuilderError.UninitializedField "command")
  | some command =>
    match b.ephem_type with
    | none => Except.error (CommonBuilderError.UninitializedField "ephem_type")
    | some ephem_type =>
      match b.center with
      | none => Except.error (CommonBuilderError.UninitializedField "center")
      | some center =>
        match b.time_spec with
        | none => Except.error (CommonBuilderError.UninitializedField "time_spec")
        | some time_spec =>
          Except.ok
            { command := command, ephem_type := ephem_type, center := center,
              ref_system := b.ref_system, format := b.format,
              obj_data := HzBool.fromBool b.obj_data,
              make_ephem := HzBool.fromBool b.make_ephem,
              csv_format := HzBool.fromBool b.csv_format,
              time_spec := time_spec }

/-! ### The specific blocks and their builders -/

/-- The elements-specific block, fields in declared wire order. -/
structure Elements where
  tp_type : TpType
  out_units : OutUnits
  ref_plane : RefPlane
  elm_labels : HzBool

/-- The serialized fields of the elements block. -/
def Elements.fields (e : Elements) : FieldList :=
  [("tp_type", e.tp_type.toWire),
   ("out_units", e.out_units.toWire),
   ("ref_plane", e.ref_plane.toWire),
   ("elm_labels", e.elm_labels.toWire)]

/-- The builder for the elements block: every field has a default, so
finalization cannot fail. -/
structure ElementsBuilder where
  tp_type : TpType
  out_units : OutUnits
  ref_plane : RefPlane
  elm_labels : Bool

/-- The Default impl of the elements builder. -/
def ElementsBuilder.default : ElementsBuilder :=
  { tp_type := TpType.Absolute, out_units := OutUnits.KM_S,
    ref_plane := RefPlane.Ecliptic, elm_labels := true }

/-- Setter for the periapsis-time convention. -/
def ElementsBuilder.tp_type' (b : ElementsBuilder) (v : TpType) : ElementsBuilder :=
  { b with tp_type := v }

/-- Setter for the output units. -/
def ElementsBuilder.out_units' (b : ElementsBuilder) (v : OutUnits) : ElementsBuilder :=
  { b with out_units := v }

/-- Setter for the reference plane. -/
def ElementsBuilder.ref_plane' (b : ElementsBuilder) (v : RefPlane) : ElementsBuilder :=
  { b with ref_plane := v }

/-- Setter for the labels flag. -/
def ElementsBuilder.elm_labels' (b : ElementsBuilder) (v : Bool) : ElementsBuilder :=
  { b with elm_labels := v }

/-- Finalization of the elements block: total. -/
def ElementsBuilder.build (b : ElementsBuilder) : Elements :=
  { tp_type := b.tp_type, out_units := b.out_units, ref_plane := b.ref_plane,
    elm_labels := HzBool.fromBool b.elm_labels }

/-- Modelled from the spec: the vectors block of the current source tree is
missing from the packaged sources (an older copy without the table-layout
field stands in for it); per the spec data model and wire contract the
block carries the output table layout code first, then the label flag,
delta-time flag, correction mode, output units and reference plane as in
the packaged copy. -/
structure Vectors where
  vec_table : TableFormat
  vec_labels : HzBool
  vec_delta_t : HzBool
  vec_corr : Correction
  out_units : OutUnits
  ref_plane : RefPlane

/-- The serialized fields of the vectors block; the table layout renders
as its numeric code. -/
def Vectors.fields (v : Vectors) : FieldList :=
  [("vec_table", Nat.repr v.vec_table.toCode),
   ("vec_labels", v.vec_labels.toWire),
   ("vec_delta_t", v.vec_delta_t.toWire),
   ("vec_corr", v.vec_corr.toWire),
   ("out_units", v.out_units.toWire),
   ("ref_plane", v.ref_plane.toWire)]

/-- Modelled from the spec: the builder for the vectors block, the
table-layout field (setter named table_format in the callers) added to the
packaged copy, every field defaulted so finalization cannot fail. -/
structure VectorsBuilder where
  table_format : TableFormat
  vec_labels : Bool
  vec_delta_t : Bool
  vec_corr : Correction
  out_units : OutUnits
  ref_plane : RefPlane

/-- The Default impl of the vectors builder. -/
def VectorsBuilder.default : VectorsBuilder :=
  { table_format := TableFormat.State_LT, vec_labels := true, vec_delta_t := false,
    vec_corr := Correction.None, out_units := OutUnits.KM_S,
    ref_plane := RefPlane.Ecliptic }

/-- Setter for the table layout. -/
def VectorsBuilder.table_format' (b : VectorsBuilder) (v : TableFormat) : VectorsBuilder :=
  { b with table_format := v }

/-- Setter for the labels flag. -/
def VectorsBuilder.vec_labels' (b : VectorsBuilder) (v : Bool) : VectorsBuilder :=
  { b with vec_labels := v }

/-- Setter for the delta-time flag. -/
def VectorsBuilder.vec_delta_t' (b : VectorsBuilder) (v : Bool) : VectorsBuilder :=
  { b with vec_delta_t := v }

/-- Setter for the correction mode. -/
def VectorsBuilder.vec_corr' (b : VectorsBuilder) (v : Correction) : VectorsBuilder :=
  { b with vec_corr := v }

/-- Setter for the output units. -/
def VectorsBuilder.out_units' (b : VectorsBuilder) (v : OutUnits) : VectorsBuilder :=
  { b with out_units := v }

/-- Setter for the reference plane. -/
def VectorsBuilder.ref_plane' (b : VectorsBuilder) (v : RefPlane) : VectorsBuilder :=
  { b with ref_plane := v }

/-- Finalization of the vectors block: total. -/
def VectorsBuilder.build (b : VectorsBuilder) : Vectors :=
  { vec_table := b.table_format, vec_labels := HzBool.fromBool b.vec_labels,
    vec_delta_t := HzBool.fromBool b.vec_delta_t, vec_corr := b.vec_corr,
    out_units := b.out_units, ref_plane := b.ref_plane }

/-! ### Query assembly and serialization -/

/-- The tagged union of the specific blocks. -/
inductive Ephemeris where
  | Elements (e : Horizons.Elements)
  | Vectors (v : Horizons.Vectors)

/-- The serialized fields of a specific block. -/
def Ephemeris.fields : Ephemeris → FieldList
  | Ephemeris.Elements e => e.fields
  | Ephemeris.Vectors v => v.fields

/-- A finished query: one common block and one specific block. -/
structure Query where
  common : Common
  specific : Ephemeris

/-- The flat ordered field sequence of a query: the common block then the
specific block. -/
def Query.fields (q : Query) : FieldList := q.common.fields ++ q.specific.fields

/-- The url-encoded serialization of a query. -/
def Query.serialize (q : Query) : String := urlEncode q.fields

/-- A query builder: the shared common builder plus a specific builder. -/
structure QueryBuilder (T : Type) where
  common : CommonBuilder
  specific : T

/-- The composite builder error wrapping the common builder error. -/
inductive QueryBuilderError where
  | CommonBuilderError (e : Horizons.CommonBuilderError)
deriving DecidableEq

/-- A fresh elements query builder: the ephemeris type is pre-set. -/
def Query.elements : QueryBuilder ElementsBuilder :=
  { common := CommonBuilder.new.ephem_type' EphemType.Elements,
    specific := ElementsBuilder.default }

/-- A fresh vectors query builder: the ephemeris type is pre-set. -/
def Query.vectors : QueryBuilder VectorsBuilder :=
  { common := CommonBuilder.new.ephem_type' EphemType.Vectors,
    specific := VectorsBuilder.default }

/-- Finalization of an elements query. -/
def QueryBuilder.buildElements (q : QueryBuilder ElementsBuilder) :
    Except QueryBuilderError Query :=
  match q.common.build with
  | Except.error e => Except.error (QueryBuilderError.CommonBuilderError e)
  | Except.ok c => Except.ok { common := c, specific := Ephemeris.Elements q.specific.build }

/-- Finalization of a vectors query. -/
def QueryBuilder.buildVectors (q : QueryBuilder VectorsBuilder) :
    Except QueryBuilderError Query :=
  match q.common.build with
  | Except.error e => Except.error (QueryBuilderError.CommonBuilderError e)
  | Except.ok c => Except.ok { common := c, specific := Ephemeris.Vectors q.specific.build }

/-! ### Presets -/

/-- The private preset helper: a fresh vectors builder with the target,
center and time specification set. -/
def vectors (target : Body) (center : Center) (time : TimeSpec) :
    QueryBuilder VectorsBuilder :=
  { Query.vectors with
      common :=
        ((Query.vectors.common.command' (Command.Body target)).center' center).time_spec' time }

/-- The state-vectors preset, before the final unwrap of the source. -/
def state_vectors (target : Body) (center : Center) (time : TimeSpec) :
    Except QueryBuilderError Query :=
  let q := vectors target center time
  ({ q with specific := q.specific.table_format' TableFormat.State }).buildVectors

/-- The position-vectors preset, before the final unwrap of the source. -/
def position_vectors (target : Body) (center : Center) (time : TimeSpec) :
    Except QueryBuilderError Query :=
  let q := vectors target center time
  ({ q with specific := q.specific.table_format' TableFormat.Position }).buildVectors

/-- The velocity-vector preset, before the final unwrap of the source. -/
def velocity_vector (target : Body) (center : Center) (time : TimeSpec) :
    Except QueryBuilderError Query :=
  let q := vectors target center time
  ({ q with specific := q.specific.table_format' TableFormat.Velocity }).buildVectors

/-- The light-time-vectors preset, before the final unwrap of the source. -/
def light_time_vectors (target : Body) (center : Center) (time : TimeSpec) :
    Except QueryBuilderError Query :=
  let q := vectors target center time
  ({ q with specific := q.specific.table_format' TableFormat.LT }).buildVectors

end Horizons

/-! ### Inputs of the concrete test-contract claims -/

namespace Horizons

/-- The query of the serialization contract: target Jupiter, vectors,
center the solar-system barycenter at the default site, bounded six-hour
steps over two days, object data and csv off, correction LT+S, defaults
elsewhere. -/
def c1Query : Except QueryBuilderError Query :=
  let start : DateTime := ⟨2022, 8, 28, 0, 0, 0, 0⟩
  let stop : DateTime := ⟨2022, 8, 30, 0, 0, 0, 0⟩
  let b0 := Query.vectors
  let common :=
    ((((b0.common.command' (Command.Body (Body.MajorBody MajorBody.Jupiter))).center'
        (Center.fromBody (Body.MajorBody MajorBody.SolarSystemBary))).time_spec'
        (TimeSpec.bounded ⟨6, StepSizeUnit.Hours⟩ start stop)).obj_data' false).csv_format'
      false
  QueryBuilder.buildVectors { common := common, specific := b0.specific.vec_corr' Correction.LT_S }

/-- The target of the preset contract: Europa. -/
def c7Target : Body := Body.MajorBody MajorBody.Europa

/-- The center of the preset contract: Jupiter at the default site. -/
def c7Center : Center := Center.fromBody (Body.MajorBody MajorBody.Jupiter)

/-- The single-instant time list of the preset contract. -/
def c7Time : TimeSpec := TimeSpec.from_list [⟨2022, 8, 31, 0, 0, 0, 0⟩]

/-- The fields of the preset contract shared by all four presets, before
the vec_table field. -/
def c7Head : String :=
  "command=502&ephem_type=V&center=500%40599" ++
  "&ref_system=ICRF&format=text&obj_data=yes&make_ephem=yes" ++
  "&csv_format=no&tlist=2022-08-31T00%3A00%3A00Z&vec_table="

/-- The fields of the preset contract shared by all four presets, after
the vec_table field. -/
def c7Tail : String :=
  "&vec_labels=yes&vec_delta_t=no&vec_corr=NONE&out_units=km-s&ref_plane=E"

/-- A fully-populated common builder used to witness builder reuse. -/
def c8Builder : CommonBuilder :=
  ((CommonBuilder.new.command' (Command.Body (Body.MajorBody MajorBody.Europa))).ephem_type'
      EphemType.Vectors).center'
      (Center.fromBody (Body.MajorBody MajorBody.Jupiter)) |>.time_spec'
    (TimeSpec.from_list [⟨2022, 8, 31, 0, 0, 0, 0⟩])

end Horizons

/-! ### The claims -/

open Horizons

/-- Claim C1: the query built with target Jupiter (599), ephemeris type
Vectors, center the solar-system barycenter (0) at site 500, bounded
six-hour steps from 2022-08-28T00:00:00Z to 2022-08-30T00:00:00Z, object
data and csv off, correction LT+S and defaults elsewhere serializes to
exactly the contract string, fields in the fixed declared order. -/
theorem c1_query_serialization :
    c1Query.map Query.serialize =
      Except.ok
        ("command=599&ephem_type=V&center=500%400&ref_system=ICRF&format=text" ++
         "&obj_data=no&make_ephem=yes&csv_format=no&step_size=6h" ++
         "&start_time=2022-08-28T00%3A00%3A00Z&stop_time=2022-08-30T00%3A00%3A00Z" ++
         "&vec_table=3&vec_labels=yes&vec_delta_t=no&vec_corr=LT%2BS&out_units=km-s" ++
         "&ref_plane=E") :=
  rfl

/-- Claim C2: finalizing a common builder succeeds exactly when the four
required fields are set, and otherwise fails with the uninitialized-field
error naming the first unset field in the order command, ephem_type,
center, time_spec; nothing else can make it fail. -/
theorem c2_build_requires_exactly_required (b : CommonBuilder) :
    ((∃ c, b.build = Except.ok c) ↔
      (b.command.isSome = true ∧ b.ephem_type.isSome = true ∧ b.center.isSome = true ∧
        b.time_spec.isSome = true))
    ∧ (b.command = none →
        b.build = Except.error (CommonBuilderError.UninitializedField "command"))
    ∧ (b.command.isSome = true → b.ephem_type = none →
        b.build = Except.error (CommonBuilderError.UninitializedField "ephem_type"))
    ∧ (b.command.isSome = true → b.ephem_type.isSome = true → b.center = none →
        b.build = Except.error (CommonBuilderError.UninitializedField "center"))
    ∧ (b.command.isSome = true → b.ephem_type.isSome = true → b.center.isSome = true →
        b.time_spec = none →
        b.build = Except.error (CommonBuilderError.UninitializedField "time_spec")) := by
  obtain ⟨command, ephem_type, center, ref_system, time_spec, fmt, od, me, cf⟩ := b
  cases command <;> cases ephem_type <;> cases center <;> cases time_spec <;>
    simp [CommonBuilder.build]

/-- Witness for claim C2: the fresh builder has no command set and fails
naming the command field. -/
theorem c2_witness :
    CommonBuilder.new.build =
      Except.error (CommonBuilderError.UninitializedField "command") :=
  (c2_build_requires_exactly_required CommonBuilder.new).2.1 rfl

/-- Claim C3: decoding the canonical code of any registry body returns
that body: the registry round-trips on every enumerated body. -/
theorem c3_roundtrip (b : MajorBody) :
    MajorBody.tryFromInt (MajorBody.toCode b) = Except.ok b := by
  cases b <;> rfl

/-- Counterexample for claim C4: the u64 value 2 to the 63 is absent from
the body table, yet decoding it carries -(2 to the 63), not the supplied
integer: the cast to i64 in the error path wraps values outside the i64
range. -/
theorem c4_counterexample :
    MajorBody.tryFromInt (2 ^ 63) = Except.error ⟨-(2 ^ 63)⟩ ∧
      ((-(2 ^ 63) : Int) ≠ 2 ^ 63) ∧ ((2 ^ 63 : Int) < 2 ^ 64) :=
  ⟨rfl, by decide, by decide⟩

/-- Claim C4 (amended): decoding any integer absent from the body table
fails with the invalid-code error carrying the supplied integer wrapped
twos-complement into the i64 range; the carried value equals the supplied
integer exactly whenever it fits in i64, which covers every u32, i32 and
i64 input. -/
theorem c4_absent_code_error (n : Int)
    (h : (if 0 ≤ n then MajorBody.lookup n.toNat else none) = none) :
    MajorBody.tryFromInt n = Except.error ⟨i64_wrap n⟩ ∧
      (-(2 ^ 63) ≤ n → n < 2 ^ 63 → i64_wrap n = n) := by
  constructor
  · unfold MajorBody.tryFromInt
    rw [h]
  · intro h1 h2
    unfold i64_wrap
    omega

/-- Witness for claim C4 (amended): 598 is absent from the table and is
reported back exactly. -/
theorem c4_witness :
    MajorBody.tryFromInt 598 = Except.error ⟨(598 : Int)⟩ := by
  have h := c4_absent_code_error 598 rfl
  rw [h.1, h.2 (by decide) (by decide)]

/-- Claim C5: every primitive wire encoder maps its finite value set to
exactly the protocol tokens of the contract table, and a boolean renders
as yes or no under any field name. -/
theorem c5_wire_tokens :
    (HzBool.fromBool true).toWire = "yes" ∧ (HzBool.fromBool false).toWire = "no"
    ∧ (∀ k : String,
        encodePair (k, (HzBool.fromBool true).toWire) = percentEncode k ++ "=" ++ "yes")
    ∧ (∀ k : String,
        encodePair (k, (HzBool.fromBool false).toWire) = percentEncode k ++ "=" ++ "no")
    ∧ EphemType.toWire EphemType.Observer = "O"
    ∧ EphemType.toWire EphemType.Elements = "E"
    ∧ EphemType.toWire EphemType.Vectors = "V"
    ∧ Format.toWire Format.Text = "text"
    ∧ Format.toWire Format.Json = "json"
    ∧ RefPlane.toWire RefPlane.Ecliptic = "E"
    ∧ RefPlane.toWire RefPlane.Frame = "F"
    ∧ RefPlane.toWire RefPlane.BodyEquator = "B"
    ∧ RefSystem.toWire RefSystem.ICRF = "ICRF"
    ∧ RefSystem.toWire RefSystem.B1950 = "B1950"
    ∧ OutUnits.toWire OutUnits.KM_D = "km-d"
    ∧ OutUnits.toWire OutUnits.KM_S = "km-s"
    ∧ OutUnits.toWire OutUnits.AU_D = "au-d"
    ∧ Correction.toWire Correction.None = "NONE"
    ∧ Correction.toWire Correction.LT = "LT"
    ∧ Correction.toWire Correction.LT_S = "LT+S" :=
  ⟨rfl, rfl, fun _ => rfl, fun _ => rfl, rfl, rfl, rfl, rfl, rfl, rfl, rfl, rfl, rfl,
   rfl, rfl, rfl, rfl, rfl, rfl, rfl⟩

/-- Claim C6: building a time specification from any list of instants
never fails and serializes as the single tlist field joining the
timestamps with commas, each rendered in UTC RFC 3339 with the Z marker
and automatic sub-second precision; zero nanoseconds render no fractional
part, and the empty list yields a tlist field with empty content. -/
theorem c6_from_list_serialization (l : List DateTime) :
    (TimeSpec.from_list l).fields =
        [("tlist", String.intercalate "," (l.map DateTime.rfc3339Z))]
    ∧ (∀ d : DateTime, ∃ s, d.rfc3339Z = s ++ "Z")
    ∧ (∀ d : DateTime, DateTime.fracAutoSi { d with nanos := 0 } = "")
    ∧ (TimeSpec.from_list []).fields = [("tlist", "")] :=
  ⟨rfl, fun d => ⟨d.rfc3339Core, rfl⟩, fun _ => rfl, rfl⟩

/-- Claim C7: with target Europa, center Jupiter and the single-instant
list 2022-08-31T00:00:00Z, the four vector presets serialize to strings
that are identical except for the vec_table value, which is 2, 5, 1 and 6
respectively. -/
theorem c7_presets_differ_only_in_table :
    (state_vectors c7Target c7Center c7Time).map Query.serialize =
        Except.ok (c7Head ++ "2" ++ c7Tail)
    ∧ (velocity_vector c7Target c7Center c7Time).map Query.serialize =
        Except.ok (c7Head ++ "5" ++ c7Tail)
    ∧ (position_vectors c7Target c7Center c7Time).map Query.serialize =
        Except.ok (c7Head ++ "1" ++ c7Tail)
    ∧ (light_time_vectors c7Target c7Center c7Time).map Query.serialize =
        Except.ok (c7Head ++ "6" ++ c7Tail) :=
  ⟨rfl, rfl, rfl, rfl⟩

/-- The common block that finalizing the reuse-witness builder produces. -/
def c8Common : Common :=
  { command := Command.Body (Body.MajorBody MajorBody.Europa),
    ephem_type := EphemType.Vectors,
    center := Center.fromBody (Body.MajorBody MajorBody.Jupiter),
    ref_system := RefSystem.ICRF, format := Format.Text,
    obj_data := HzBool.fromBool true, make_ephem := HzBool.fromBool true,
    csv_format := HzBool.fromBool false,
    time_spec := TimeSpec.from_list [⟨2022, 8, 31, 0, 0, 0, 0⟩] }

/-- Claim C8: finalization is idempotent and non-consuming: building twice
with no intervening mutation yields equal results for the common builder
and for both query builders, and after a successful build the same builder
can be mutated and rebuilt, yielding the query with exactly that field
changed. -/
theorem c8_build_idempotent_nonconsuming (b : CommonBuilder)
    (eb : QueryBuilder ElementsBuilder) (vb : QueryBuilder VectorsBuilder) :
    (b.build = b.build ∧ eb.buildElements = eb.buildElements ∧
      vb.buildVectors = vb.buildVectors)
    ∧ (∀ c, b.build = Except.ok c → ∀ v : Bool,
        (b.csv_format' v).build = Except.ok { c with csv_format := HzBool.fromBool v }) := by
  refine ⟨⟨rfl, rfl, rfl⟩, ?_⟩
  intro c hc v
  obtain ⟨command, ephem_type, center, ref_system, time_spec, fmt, od, me, cf⟩ := b
  cases command <;> cases ephem_type <;> cases center <;> cases time_spec <;>
    simp [CommonBuilder.build] at hc
  subst hc
  rfl

/-- Witness for claim C8: the fully-populated builder builds successfully,
and setting the csv flag afterwards and rebuilding yields the same common
block with only that flag changed. -/
theorem c8_witness :
    (c8Builder.csv_format' true).build =
      Except.ok { c8Common with csv_format := HzBool.fromBool true } :=
  (c8_build_idempotent_nonconsuming c8Builder Query.elements Query.vectors).2 c8Common rfl true

/-- Claim C9: center construction and serialization are total: a body
alone yields the default site rendering 500, an explicit pair keeps its
site, the wire form is always the single site-at-body string, and a
registry body renders as its numeric code, never its name. -/
theorem c9_center_addressing (b : Body) (s : Site) (mb : MajorBody) :
    Center.fromBody b = ⟨Site.Center, b⟩
    ∧ Site.Center.toWire = "500"
    ∧ Center.fromPair s b = ⟨s, b⟩
    ∧ (Center.fromPair s b).toWire = s.toWire ++ "@" ++ b.toWire
    ∧ (Body.MajorBody mb).toWire = Nat.repr mb.toCode :=
  ⟨rfl, rfl, rfl, rfl, rfl⟩

/-- Claim C10: the four vector presets can never hit their unwrap failure
branch: for every target, center and time specification the preset helper
sets command, center and time_spec and the vectors entry point pre-sets
the ephemeris type, so finalization always succeeds. -/
theorem c10_presets_never_fail (t : Body) (c : Center) (ts : TimeSpec) :
    (∃ q, state_vectors t c ts = Except.ok q)
    ∧ (∃ q, position_vectors t c ts = Except.ok q)
    ∧ (∃ q, velocity_vector t c ts = Except.ok q)
    ∧ (∃ q, light_time_vectors t c ts = Except.ok q) :=
  ⟨⟨_, rfl⟩, ⟨_, rfl⟩, ⟨_, rfl⟩, ⟨_, rfl⟩⟩
